import Mathlib

/-!
# Resource registry of the OpenGL backend (graphics/opengl/ids.go)

A shallow embedding of the type `ids` and of its methods, followed by the
properties of identifier allocation, registration, deletion and viewport
caching.

Conventions of the embedding.

* A Go map is a function from keys to `Option` values: `none` is an absent key,
  `Function.update m k (some v)` is `m[k] = v` and `Function.update m k none` is
  `delete(m, k)`.  A lookup of a pointer-valued map yields `none` for the nil
  pointer that Go returns on an absent key; the handles handed to the registry
  are non-nil.
* `lastId` is a Go `int`.  Identifiers are embedded as unbounded integers, so
  the statements below speak about runs in which the counter does not wrap
  around (fewer than 2^63 allocations on a 64-bit target).
* The reader/writer lock only serialises the bodies below; every method is
  embedded as one atomic state transformer.
* Calls into the native layer (methods of `Texture` and `RenderTarget`, `gl`
  and `shader` calls) are not part of ids.go.  Every such call is recorded, in
  program order, as an `Event` carrying its receiver, the nil receiver
  included.  The results of native texture and framebuffer creation are
  arguments of the embedded methods.
* Floating point arguments (colour conversion, matrices, quads) do not
  influence the registry and are left out of the events.
-/

namespace opengl

/-- Modelled from the spec: the identifier type `graphics.TextureID`, declared
outside ids.go, an opaque integer identifier (the code converts `lastId`, an
`int`, to it). -/
abbrev TextureID := Int

/-- Modelled from the spec: the identifier type `graphics.RenderTargetID`,
declared outside ids.go, an opaque integer identifier. -/
abbrev RenderTargetID := Int

/-- Go's `error` values, as far as the registry is concerned: it only passes
them on. -/
abbrev GoError := String

/-- The struct `Texture`: ids.go reads the fields `native`, `width` and
`height`. -/
structure Texture where
  native : Nat
  width : Int
  height : Int
deriving DecidableEq, Repr

/-- The struct `RenderTarget`, as built by the literal in
`createRenderTarget`. -/
structure RenderTarget where
  framebuffer : Nat
  width : Int
  height : Int
deriving DecidableEq, Repr

/-- Calls into the native layer issued by the methods of `ids`.  A receiver
that is `none` is the nil pointer. -/
inductive Event where
  /-- The call `createFramebuffer(gl.Texture(texture.native))` and its result. -/
  | createFramebuffer (native : Nat) (framebuffer : Nat)
  /-- The call `renderTarget.dispose()`. -/
  | renderTargetDispose (r : Option RenderTarget)
  /-- The call `texture.dispose()`. -/
  | textureDispose (t : Option Texture)
  /-- The call `r.setAsViewport()`. -/
  | setAsViewport (r : Option RenderTarget)
  /-- The call `gl.ClearColor(r/255, g/255, b/255, 1)`. -/
  | clearColor (r g b : Nat)
  /-- The call `gl.Clear(gl.COLOR_BUFFER_BIT)`. -/
  | clear
  /-- The call `r.projectionMatrix()`. -/
  | projectionMatrix (r : Option RenderTarget)
  /-- The call `shader.DrawTexture(texture.native, ...)`. -/
  | shaderDrawTexture (native : Nat)
deriving DecidableEq, Repr

/-- The struct `ids` without its lock. -/
structure ids where
  textures : TextureID → Option Texture
  renderTargets : RenderTargetID → Option RenderTarget
  renderTargetToTexture : RenderTargetID → Option TextureID
  lastId : Int
  currentRenderTargetId : RenderTargetID

/-- The variable `idsInstance`: three empty maps, `lastId` at its zero value,
`currentRenderTargetId` at -1. -/
def idsInstance : ids where
  textures := fun _ => none
  renderTargets := fun _ => none
  renderTargetToTexture := fun _ => none
  lastId := 0
  currentRenderTargetId := -1

namespace ids

/-- The method `textureAt`: `i.textures[id]`, nil when absent. -/
def textureAt (i : ids) (id : TextureID) : Option Texture :=
  i.textures id

/-- The method `renderTargetAt`: `i.renderTargets[id]`, nil when absent. -/
def renderTargetAt (i : ids) (id : RenderTargetID) : Option RenderTarget :=
  i.renderTargets id

/-- The method `toTexture`: `i.renderTargetToTexture[id]`, the zero value 0
when absent. -/
def toTexture (i : ids) (id : RenderTargetID) : TextureID :=
  (i.renderTargetToTexture id).getD 0

/-- The method `createTexture`. `native` is the result of
`createTextureFromImage(img, filter)`.  Returns the pair `(id, err)` and the
registry after the call. -/
def createTexture (i : ids) (native : Except GoError Texture) :
    (TextureID × Option GoError) × ids :=
  match native with
  | .error err => ((0, some err), i)
  | .ok texture =>
    let lastId := i.lastId + 1
    let textureId : TextureID := lastId
    ((textureId, none),
      { i with
        lastId := lastId
        textures := Function.update i.textures textureId (some texture) })

/-- The method `createRenderTarget`. `native` is the result of
`createTexture(width, height, filter)` and `framebuffer` the result of
`createFramebuffer`.  Returns the pair `(id, err)`, the registry after the
call and the native calls issued. -/
def createRenderTarget (i : ids) (native : Except GoError Texture) (framebuffer : Nat) :
    (RenderTargetID × Option GoError) × ids × List Event :=
  match native with
  | .error err => ((0, some err), i, [])
  | .ok texture =>
    let renderTarget : RenderTarget :=
      { framebuffer := framebuffer, width := texture.width, height := texture.height }
    let lastId1 := i.lastId + 1
    let textureId : TextureID := lastId1
    let lastId2 := lastId1 + 1
    let renderTargetId : RenderTargetID := lastId2
    ((renderTargetId, none),
      { textures := Function.update i.textures textureId (some texture)
        renderTargets := Function.update i.renderTargets renderTargetId (some renderTarget)
        renderTargetToTexture :=
          Function.update i.renderTargetToTexture renderTargetId (some textureId)
        lastId := lastId2
        currentRenderTargetId := -1 },
      [Event.createFramebuffer texture.native framebuffer])

/-- The method `addRenderTarget`. -/
def addRenderTarget (i : ids) (renderTarget : RenderTarget) : RenderTargetID × ids :=
  let lastId := i.lastId + 1
  let id : RenderTargetID := lastId
  (id,
    { i with
      lastId := lastId
      renderTargets := Function.update i.renderTargets id (some renderTarget) })

/-- The method `deleteRenderTarget`: three lookups, two dispose calls, three
deletions. -/
def deleteRenderTarget (i : ids) (id : RenderTargetID) : ids × List Event :=
  let renderTarget := i.renderTargets id
  let textureId := (i.renderTargetToTexture id).getD 0
  let texture := i.textures textureId
  ({ i with
      renderTargets := Function.update i.renderTargets id none
      renderTargetToTexture := Function.update i.renderTargetToTexture id none
      textures := Function.update i.textures textureId none },
    [Event.renderTargetDispose renderTarget, Event.textureDispose texture])

/-- The method `setViewportIfNeeded`. -/
def setViewportIfNeeded (i : ids) (id : RenderTargetID) : ids × List Event :=
  let r := i.renderTargetAt id
  if i.currentRenderTargetId ≠ id then
    ({ i with currentRenderTargetId := id }, [Event.setAsViewport r])
  else
    (i, [])

/-- The method `fillRenderTarget`; `r`, `g`, `b` are the `uint8` channels. -/
def fillRenderTarget (i : ids) (id : RenderTargetID) (r g b : Nat) : ids × List Event :=
  let (i1, es) := i.setViewportIfNeeded id
  (i1, es ++ [Event.clearColor r g b, Event.clear])

/-- The method `drawTexture`, without its floating point arguments.  The third
component is `false` when the body stops at the field access `texture.width`
on a nil texture, after the viewport has been set. -/
def drawTexture (i : ids) (target : RenderTargetID) (id : TextureID) :
    ids × List Event × Bool :=
  let texture := i.textureAt id
  let (i1, es) := i.setViewportIfNeeded target
  let r := i1.renderTargetAt target
  match texture with
  | none => (i1, es ++ [Event.projectionMatrix r], false)
  | some t => (i1, es ++ [Event.projectionMatrix r, Event.shaderDrawTexture t.native], true)

end ids

/-- The two kinds of identifier handed out by the registry. -/
inductive Kind where
  | texture
  | renderTarget
deriving DecidableEq, Repr

/-- One call of a method of the registry, with the results of the native
creation calls it makes. -/
inductive Op where
  | createTexture (native : Except GoError Texture)
  | createRenderTarget (native : Except GoError Texture) (framebuffer : Nat)
  | addRenderTarget (renderTarget : RenderTarget)
  | deleteRenderTarget (id : RenderTargetID)
  | fillRenderTarget (id : RenderTargetID) (r g b : Nat)
  | drawTexture (target : RenderTargetID) (id : TextureID)

/-- What one call leaves behind: the registry, the native calls issued and the
identifiers allocated, in order of allocation. -/
structure Step where
  state : ids
  events : List Event
  allocated : List (Kind × Int)

/-- Runs one call.  The allocated identifiers are read off the results: the
identifier returned when no error is returned and, for `createRenderTarget`,
the backing texture found under the returned identifier. -/
def step (i : ids) : Op → Step
  | .createTexture native =>
    let out := i.createTexture native
    { state := out.2
      events := []
      allocated := if out.1.2.isNone then [(Kind.texture, out.1.1)] else [] }
  | .createRenderTarget native framebuffer =>
    let out := i.createRenderTarget native framebuffer
    { state := out.2.1
      events := out.2.2
      allocated :=
        if out.1.2.isNone then
          [(Kind.texture, out.2.1.toTexture out.1.1), (Kind.renderTarget, out.1.1)]
        else [] }
  | .addRenderTarget renderTarget =>
    let out := i.addRenderTarget renderTarget
    { state := out.2, events := [], allocated := [(Kind.renderTarget, out.1)] }
  | .deleteRenderTarget id =>
    let out := i.deleteRenderTarget id
    { state := out.1, events := out.2, allocated := [] }
  | .fillRenderTarget id r g b =>
    let out := i.fillRenderTarget id r g b
    { state := out.1, events := out.2, allocated := [] }
  | .drawTexture target id =>
    let out := i.drawTexture target id
    { state := out.1, events := out.2.1, allocated := [] }

/-- The registry after a sequence of calls. -/
def run (i : ids) : List Op → ids
  | [] => i
  | op :: ops => run (step i op).state ops

/-- The native calls issued by a sequence of calls. -/
def trace (i : ids) : List Op → List Event
  | [] => []
  | op :: ops => (step i op).events ++ trace (step i op).state ops

/-- A call names only registered identifiers: the render target of a deletion,
a fill or a draw is a key of the render target map and the texture of a draw
is a key of the texture map. -/
def Op.onRegistered (i : ids) : Op → Bool
  | .createTexture _ => true
  | .createRenderTarget _ _ => true
  | .addRenderTarget _ => true
  | .deleteRenderTarget id => (i.renderTargets id).isSome
  | .fillRenderTarget id _ _ _ => (i.renderTargets id).isSome
  | .drawTexture target id => (i.renderTargets target).isSome && (i.textures id).isSome

/-- Every call of the sequence names only identifiers registered when it is
made. -/
def allRegistered (i : ids) : List Op → Bool
  | [] => true
  | op :: ops => op.onRegistered i && allRegistered (step i op).state ops

/-- The native call is a viewport bind (`setAsViewport`). -/
def Event.isBind : Event → Bool
  | .setAsViewport _ => true
  | _ => false

/-- Number of viewport binds among native calls. -/
def binds (es : List Event) : Nat :=
  es.countP Event.isBind

/-- The calls `fillRenderTarget a`, `fillRenderTarget b`, `fillRenderTarget a`,
... , one for each colour of the list: the native calls issued by each call. -/
def fillAlternately (i : ids) (a b : RenderTargetID) :
    List (Nat × Nat × Nat) → List (List Event)
  | [] => []
  | c :: cs =>
    (i.fillRenderTarget a c.1 c.2.1 c.2.2).2 ::
      fillAlternately (i.fillRenderTarget a c.1 c.2.1 c.2.2).1 b a cs

/-- A registry with two render targets, 2 and 4, backed by the textures 1 and 3,
and no cached active render target. -/
def twoTargets : ids :=
  run idsInstance
    [.createRenderTarget (.ok ⟨7, 64, 64⟩) 1, .createRenderTarget (.ok ⟨8, 32, 32⟩) 2]

/-- The bookkeeping invariant of the registry: the keys of the texture map and
of the render target map are identifiers already allocated (between 1 and the
counter), every key of the render-target-to-texture map is a key of the render
target map and maps to a key of the texture map, and no two render targets
share a backing texture. -/
structure ids.Consistent (i : ids) : Prop where
  counter : 0 ≤ i.lastId
  textureKeys : ∀ k : Int, (i.textures k).isSome → 1 ≤ k ∧ k ≤ i.lastId
  renderTargetKeys : ∀ k : Int, (i.renderTargets k).isSome → 1 ≤ k ∧ k ≤ i.lastId
  backing : ∀ k t : Int, i.renderTargetToTexture k = some t →
    (i.renderTargets k).isSome ∧ (i.textures t).isSome
  unshared : ∀ k k2 t : Int, i.renderTargetToTexture k = some t →
    i.renderTargetToTexture k2 = some t → k = k2

/-- Modelled from the spec: the framebuffer bound on the GPU, which
`setAsViewport` sets to the framebuffer of its receiver and which the creation
or the deletion of a framebuffer may disturb.  The value `none` is a binding
that is not known any more. -/
def boundAfter (bound : Option Nat) : Event → Option Nat
  | .setAsViewport r => r.map RenderTarget.framebuffer
  | .createFramebuffer _ _ => none
  | .renderTargetDispose _ => none
  | _ => bound

/-- The framebuffer bound after a sequence of native calls, starting from an
unknown binding. -/
def boundFramebuffer (es : List Event) : Option Nat :=
  es.foldl boundAfter none

/-- A render target is created, filled and deleted. -/
def deleteActiveScenario : List Op :=
  [.createRenderTarget (.ok ⟨7, 64, 64⟩) 1, .fillRenderTarget 2 255 0 0, .deleteRenderTarget 2]

/-- The call is a deletion. -/
def Op.isDelete : Op → Bool
  | .deleteRenderTarget _ => true
  | _ => false

/-- The viewport cache agrees with the GPU: the registry is consistent, the
cached active render target is the sentinel or registered, and when it is
registered its framebuffer is the bound one. -/
structure CacheSound (i : ids) (bound : Option Nat) : Prop where
  consistent : i.Consistent
  active : i.currentRenderTargetId = -1 ∨ (i.renderTargets i.currentRenderTargetId).isSome
  bound_eq : ∀ r, i.renderTargets i.currentRenderTargetId = some r →
    bound = some r.framebuffer

/-! ## Creation, deletion and failure of single calls -/

/-- C2: in every registry state, with counter value n, a `createRenderTarget`
whose native texture creation succeeds allocates exactly two identifiers, the
backing texture n+1 first and the render target n+2 second: it returns n+2
without error, leaves the counter at n+2, registers the texture under n+1 and
the render target (the new framebuffer with the dimensions of the texture)
under n+2, and `toTexture` of n+2 is n+1. -/
theorem createRenderTarget_allocates_two (i : ids) (texture : Texture) (framebuffer : Nat) :
    (i.createRenderTarget (.ok texture) framebuffer).1 = (i.lastId + 2, none) ∧
    (i.createRenderTarget (.ok texture) framebuffer).2.1.lastId = i.lastId + 2 ∧
    (i.createRenderTarget (.ok texture) framebuffer).2.1.textures (i.lastId + 1)
      = some texture ∧
    (i.createRenderTarget (.ok texture) framebuffer).2.1.renderTargets (i.lastId + 2)
      = some ⟨framebuffer, texture.width, texture.height⟩ ∧
    (i.createRenderTarget (.ok texture) framebuffer).2.1.toTexture (i.lastId + 2)
      = i.lastId + 1 ∧
    (step i (.createRenderTarget (.ok texture) framebuffer)).allocated
      = [(Kind.texture, i.lastId + 1), (Kind.renderTarget, i.lastId + 2)] := by
  have h : i.lastId + 1 + 1 = i.lastId + 2 := by ring
  simp [ids.createRenderTarget, ids.toTexture, step, h]

/-- C4: when native texture creation fails, `createTexture` and
`createRenderTarget` return the error with identifier 0 and the registry they
leave is the registry they were given (counter, three maps and cached active
render target); `createRenderTarget` issues no native call and neither
allocates an identifier. -/
theorem create_failure_leaves_registry (i : ids) (err : GoError) (framebuffer : Nat) :
    i.createTexture (.error err) = ((0, some err), i) ∧
    i.createRenderTarget (.error err) framebuffer = ((0, some err), i, []) ∧
    (step i (.createTexture (.error err))).allocated = [] ∧
    (step i (.createRenderTarget (.error err) framebuffer)).allocated = [] := by
  simp [ids.createTexture, ids.createRenderTarget, step]

/-! ## Identifier allocation -/

/-- A fill leaves its target as the cached active render target and does not
touch the maps. -/
theorem fillRenderTarget_state (i : ids) (id : RenderTargetID) (r g b : Nat) :
    (i.fillRenderTarget id r g b).1.currentRenderTargetId = id ∧
    (i.fillRenderTarget id r g b).1.renderTargets = i.renderTargets := by
  simp only [ids.fillRenderTarget, ids.setViewportIfNeeded]
  split_ifs with h
  · simp
  · simp only [ne_eq, not_not] at h
    simp [h]

/-- The native calls of a fill: a bind of the target unless it is the cached
active render target, then the clear. -/
theorem fillRenderTarget_events (i : ids) (id : RenderTargetID) (r g b : Nat) :
    (i.fillRenderTarget id r g b).2 =
      (if i.currentRenderTargetId = id then []
        else [Event.setAsViewport (i.renderTargets id)]) ++
        [Event.clearColor r g b, Event.clear] := by
  simp only [ids.fillRenderTarget, ids.setViewportIfNeeded, ids.renderTargetAt]
  by_cases h : i.currentRenderTargetId = id
  · simp [h]
  · simp [h]

/-- The native calls of the call number `k` (from 0) of an alternation between
two distinct render targets. -/
theorem fillAlternately_getElem (cs : List (Nat × Nat × Nat)) :
    ∀ (i : ids) (a b : RenderTargetID), a ≠ b →
    ∀ (k : Nat) (c : Nat × Nat × Nat), cs[k]? = some c →
      (fillAlternately i a b cs)[k]? = some
        ((if k = 0 ∧ i.currentRenderTargetId = a then []
          else [Event.setAsViewport (i.renderTargets (if k % 2 = 0 then a else b))]) ++
          [Event.clearColor c.1 c.2.1 c.2.2, Event.clear]) := by
  induction cs with
  | nil => intro i a b _ k c hc; simp at hc
  | cons c0 cs ih =>
    intro i a b hab k c hc
    cases k with
    | zero =>
      simp only [List.getElem?_cons_zero, Option.some.injEq] at hc
      subst hc
      simp [fillAlternately, fillRenderTarget_events]
    | succ k =>
      simp only [List.getElem?_cons_succ] at hc
      simp only [fillAlternately, List.getElem?_cons_succ]
      rw [ih _ b a (Ne.symm hab) k c hc]
      obtain ⟨hcur, hrt⟩ := fillRenderTarget_state i a c0.1 c0.2.1 c0.2.2
      rw [hcur, hrt]
      have h1 : ¬ (k = 0 ∧ a = b) := fun h => hab h.2
      have h2 : ¬ (k + 1 = 0 ∧ i.currentRenderTargetId = a) := fun h => by omega
      rw [if_neg h1, if_neg h2]
      rcases Nat.mod_two_eq_zero_or_one k with hk | hk
      · have hk1 : (k + 1) % 2 = 1 := by omega
        simp [hk, hk1]
      · have hk1 : (k + 1) % 2 = 0 := by omega
        simp [hk, hk1]

/-- C5, as stated, fails: with 2 the cached active render target, the first
call of the alternation 2, 4 between two distinct registered render targets
issues its clear without any viewport bind. -/
theorem fill_alternation_first_call_without_bind :
    (2 : RenderTargetID) ≠ 4 ∧
    ((twoTargets.fillRenderTarget 2 0 0 0).1.renderTargets 2).isSome ∧
    ((twoTargets.fillRenderTarget 2 0 0 0).1.renderTargets 4).isSome ∧
    fillAlternately (twoTargets.fillRenderTarget 2 0 0 0).1 2 4 [(255, 0, 0), (0, 255, 0)] =
      [[Event.clearColor 255 0 0, Event.clear],
       [Event.setAsViewport (some ⟨2, 32, 32⟩), Event.clearColor 0 255 0, Event.clear]] ∧
    binds (twoTargets.fillRenderTarget 2 0 0 0).2 = 1 := by
  decide

/-- C5, amended: for every registered render target that is not the cached
active one, two fills in a row issue exactly one viewport bind, in the first
call and before its clear, and the second call issues none; for every two
distinct registered render targets a and b, in the alternation a, b, a, b, ...
every call after the first issues one bind, of its own target, before its
clear, and the first call does so exactly when a is not the cached active
render target. -/
theorem fill_bind_elision (i : ids) :
    (∀ (id : RenderTargetID) (r g b r2 g2 b2 : Nat),
      (i.renderTargets id).isSome → i.currentRenderTargetId ≠ id →
        (i.fillRenderTarget id r g b).2 =
          [Event.setAsViewport (i.renderTargets id), Event.clearColor r g b, Event.clear] ∧
        ((i.fillRenderTarget id r g b).1.fillRenderTarget id r2 g2 b2).2 =
          [Event.clearColor r2 g2 b2, Event.clear] ∧
        binds ((i.fillRenderTarget id r g b).2 ++
          ((i.fillRenderTarget id r g b).1.fillRenderTarget id r2 g2 b2).2) = 1 ∧
        binds ((i.fillRenderTarget id r g b).1.fillRenderTarget id r2 g2 b2).2 = 0) ∧
    (∀ (a b : RenderTargetID) (cs : List (Nat × Nat × Nat)),
      a ≠ b → (i.renderTargets a).isSome → (i.renderTargets b).isSome →
        ∀ (k : Nat) (c : Nat × Nat × Nat), cs[k]? = some c →
          (fillAlternately i a b cs)[k]? = some
            ((if k = 0 ∧ i.currentRenderTargetId = a then []
              else [Event.setAsViewport (i.renderTargets (if k % 2 = 0 then a else b))]) ++
              [Event.clearColor c.1 c.2.1 c.2.2, Event.clear])) := by
  refine ⟨?_, ?_⟩
  · intro id r g b r2 g2 b2 _ hcur
    have h1 : (i.fillRenderTarget id r g b).2 =
        [Event.setAsViewport (i.renderTargets id), Event.clearColor r g b, Event.clear] := by
      rw [fillRenderTarget_events, if_neg hcur]; rfl
    have h2 : ((i.fillRenderTarget id r g b).1.fillRenderTarget id r2 g2 b2).2 =
        [Event.clearColor r2 g2 b2, Event.clear] := by
      rw [fillRenderTarget_events, if_pos (fillRenderTarget_state i id r g b).1]; rfl
    refine ⟨h1, h2, ?_, ?_⟩
    · rw [h1, h2]; simp [binds, Event.isBind]
    · rw [h2]; simp [binds, Event.isBind]
  · intro a b cs hab _ _ k c hc
    exact fillAlternately_getElem cs i a b hab k c hc

/-- Witness of C5 as amended, on the registry with the render targets 2 and 4:
two fills of 2, and the second call of the alternation 2, 4. -/
theorem fill_bind_elision_witness :
    ((twoTargets.renderTargets 2).isSome ∧ twoTargets.currentRenderTargetId ≠ 2 ∧
      ((twoTargets.fillRenderTarget 2 255 0 0).2 =
          [Event.setAsViewport (twoTargets.renderTargets 2), Event.clearColor 255 0 0,
            Event.clear] ∧
        ((twoTargets.fillRenderTarget 2 255 0 0).1.fillRenderTarget 2 0 255 0).2 =
          [Event.clearColor 0 255 0, Event.clear] ∧
        binds ((twoTargets.fillRenderTarget 2 255 0 0).2 ++
          ((twoTargets.fillRenderTarget 2 255 0 0).1.fillRenderTarget 2 0 255 0).2) = 1 ∧
        binds ((twoTargets.fillRenderTarget 2 255 0 0).1.fillRenderTarget 2 0 255 0).2 = 0)) ∧
    ((2 : RenderTargetID) ≠ 4 ∧ (twoTargets.renderTargets 4).isSome ∧
      [((255 : Nat), (0 : Nat), (0 : Nat)), (0, 255, 0)][1]? = some (0, 255, 0) ∧
      (fillAlternately twoTargets 2 4 [(255, 0, 0), (0, 255, 0)])[1]? = some
        ((if 1 = 0 ∧ twoTargets.currentRenderTargetId = 2 then []
          else [Event.setAsViewport (twoTargets.renderTargets (if 1 % 2 = 0 then 2 else 4))]) ++
          [Event.clearColor 0 255 0, Event.clear])) :=
  ⟨⟨by decide, by decide,
      (fill_bind_elision twoTargets).1 2 255 0 0 0 255 0 (by decide) (by decide)⟩,
    ⟨by decide, by decide, by decide,
      (fill_bind_elision twoTargets).2 2 4 [(255, 0, 0), (0, 255, 0)] (by decide) (by decide)
        (by decide) 1 (0, 255, 0) (by decide)⟩⟩

/-! ## Consistency of the three maps -/

/-- The initial registry is consistent. -/
theorem idsInstance_consistent : idsInstance.Consistent := by
  constructor <;> simp [idsInstance]

/-- The viewport cache does not take part in the consistency of the maps. -/
theorem setViewportIfNeeded_consistent (i : ids) (id : RenderTargetID)
    (h : i.Consistent) : (i.setViewportIfNeeded id).1.Consistent := by
  simp only [ids.setViewportIfNeeded]
  split_ifs
  · exact ⟨h.counter, h.textureKeys, h.renderTargetKeys, h.backing, h.unshared⟩
  · exact h

/-- The method `createTexture` preserves consistency. -/
theorem createTexture_consistent (i : ids) (native : Except GoError Texture)
    (h : i.Consistent) : (i.createTexture native).2.Consistent := by
  cases native with
  | error e => exact h
  | ok texture =>
    have hc := h.counter
    refine ⟨?_, ?_, ?_, ?_, ?_⟩
    · simp only [ids.createTexture]; omega
    · intro k hk
      simp only [ids.createTexture, Function.update_apply] at hk ⊢
      split_ifs at hk with hkk
      · simp only [TextureID, RenderTargetID] at *
        omega
      · have := h.textureKeys k hk; omega
    · intro k hk
      simp only [ids.createTexture] at hk ⊢
      have := h.renderTargetKeys k hk; omega
    · intro k t hk
      simp only [ids.createTexture, Function.update_apply] at hk ⊢
      obtain ⟨h1, h2⟩ := h.backing k t hk
      refine ⟨h1, ?_⟩
      split_ifs
      · rfl
      · exact h2
    · intro k k2 t hk hk2
      exact h.unshared k k2 t hk hk2

/-- The method `createRenderTarget` preserves consistency. -/
theorem createRenderTarget_consistent (i : ids) (native : Except GoError Texture)
    (framebuffer : Nat) (h : i.Consistent) :
    (i.createRenderTarget native framebuffer).2.1.Consistent := by
  cases native with
  | error e => exact h
  | ok texture =>
    have hc := h.counter
    refine ⟨?_, ?_, ?_, ?_, ?_⟩
    · simp only [ids.createRenderTarget]; omega
    · intro k hk
      simp only [ids.createRenderTarget, Function.update_apply] at hk ⊢
      split_ifs at hk with hkk
      · simp only [TextureID, RenderTargetID] at *
        omega
      · have := h.textureKeys k hk; omega
    · intro k hk
      simp only [ids.createRenderTarget, Function.update_apply] at hk ⊢
      split_ifs at hk with hkk
      · simp only [TextureID, RenderTargetID] at *
        omega
      · have := h.renderTargetKeys k hk; omega
    · intro k t hk
      simp only [ids.createRenderTarget, Function.update_apply] at hk ⊢
      split_ifs at hk with hkk
      · simp only [Option.some.injEq] at hk
        subst hk
        subst hkk
        simp
      · obtain ⟨h1, h2⟩ := h.backing k t hk
        have hk1 := h.renderTargetKeys k h1
        have ht1 := h.textureKeys t h2
        have e1 : ¬ k = i.lastId + 1 + 1 := by omega
        have e2 : ¬ t = i.lastId + 1 := by omega
        simp only [if_neg e1, if_neg e2]
        exact ⟨h1, h2⟩
    · intro k k2 t hk hk2
      simp only [ids.createRenderTarget, Function.update_apply] at hk hk2
      split_ifs at hk hk2 with hkk hkk2 hkk2
      · simp only [TextureID, RenderTargetID] at *
        omega
      · simp only [Option.some.injEq] at hk
        have := h.textureKeys t (h.backing k2 t hk2).2
        simp only [TextureID, RenderTargetID] at *
        omega
      · simp only [Option.some.injEq] at hk2
        have := h.textureKeys t (h.backing k t hk).2
        simp only [TextureID, RenderTargetID] at *
        omega
      · exact h.unshared k k2 t hk hk2

/-- The method `addRenderTarget` preserves consistency. -/
theorem addRenderTarget_consistent (i : ids) (renderTarget : RenderTarget)
    (h : i.Consistent) : (i.addRenderTarget renderTarget).2.Consistent := by
  have hc := h.counter
  refine ⟨?_, ?_, ?_, ?_, ?_⟩
  · simp only [ids.addRenderTarget]; omega
  · intro k hk
    simp only [ids.addRenderTarget] at hk ⊢
    have := h.textureKeys k hk; omega
  · intro k hk
    simp only [ids.addRenderTarget, Function.update_apply] at hk ⊢
    split_ifs at hk with hkk
    · simp only [TextureID, RenderTargetID] at *
      omega
    · have := h.renderTargetKeys k hk; omega
  · intro k t hk
    simp only [ids.addRenderTarget, Function.update_apply] at hk ⊢
    obtain ⟨h1, h2⟩ := h.backing k t hk
    refine ⟨?_, h2⟩
    split_ifs
    · rfl
    · exact h1
  · intro k k2 t hk hk2
    exact h.unshared k k2 t hk hk2

/-- The method `deleteRenderTarget` preserves consistency, whatever identifier
it is given. -/
theorem deleteRenderTarget_consistent (i : ids) (id : RenderTargetID)
    (h : i.Consistent) : (i.deleteRenderTarget id).1.Consistent := by
  refine ⟨h.counter, ?_, ?_, ?_, ?_⟩
  · intro k hk
    simp only [ids.deleteRenderTarget, Function.update_apply] at hk ⊢
    split_ifs at hk with hkk
    · simp at hk
    · exact h.textureKeys k hk
  · intro k hk
    simp only [ids.deleteRenderTarget, Function.update_apply] at hk ⊢
    split_ifs at hk with hkk
    · simp at hk
    · exact h.renderTargetKeys k hk
  · intro k t hk
    simp only [ids.deleteRenderTarget, Function.update_apply] at hk ⊢
    split_ifs at hk with hkk
    obtain ⟨h1, h2⟩ := h.backing k t hk
    have ht : ¬ t = (i.renderTargetToTexture id).getD 0 := by
      intro heq
      cases hid : i.renderTargetToTexture id with
      | none =>
        rw [hid] at heq
        simp only [Option.getD_none] at heq
        have := h.textureKeys t h2
        omega
      | some t2 =>
        rw [hid] at heq
        simp only [Option.getD_some] at heq
        subst heq
        exact hkk (h.unshared k id t hk hid)
    simp only [if_neg hkk, if_neg ht]
    exact ⟨h1, h2⟩
  · intro k k2 t hk hk2
    simp only [ids.deleteRenderTarget, Function.update_apply] at hk hk2
    split_ifs at hk hk2 with hkk hkk2
    · exact h.unshared k k2 t hk hk2

/-- Every call preserves consistency. -/
theorem step_consistent (i : ids) (op : Op) (h : i.Consistent) :
    (step i op).state.Consistent := by
  cases op with
  | createTexture native => exact createTexture_consistent i native h
  | createRenderTarget native framebuffer =>
    exact createRenderTarget_consistent i native framebuffer h
  | addRenderTarget r => exact addRenderTarget_consistent i r h
  | deleteRenderTarget id => exact deleteRenderTarget_consistent i id h
  | fillRenderTarget id r g b => exact setViewportIfNeeded_consistent i id h
  | drawTexture target id =>
    have := setViewportIfNeeded_consistent i target h
    simp only [step, ids.drawTexture]
    cases i.textureAt id <;> exact this

/-- Every sequence of calls preserves consistency. -/
theorem run_consistent (ops : List Op) : ∀ i : ids, i.Consistent → (run i ops).Consistent := by
  induction ops with
  | nil => intro i h; exact h
  | cons op ops ih => intro i h; exact ih _ (step_consistent i op h)

/-- C8: in every registry state reached from the initial registry by calls of
`createTexture`, `createRenderTarget`, `addRenderTarget` and
`deleteRenderTarget` (and of the drawing methods as well), every key of the
render-target-to-texture map is a key of the render target map and the texture
identifier it maps to is a key of the texture map. -/
theorem backing_keys_registered (ops : List Op) (k : RenderTargetID) (t : TextureID)
    (h : (run idsInstance ops).renderTargetToTexture k = some t) :
    ((run idsInstance ops).renderTargets k).isSome ∧
    ((run idsInstance ops).textures t).isSome :=
  (run_consistent ops idsInstance idsInstance_consistent).backing k t h

/-- Witness of C8: after a texture, a render target and the deletion of an
unrelated identifier, the render target 3 maps to the texture 2. -/
theorem backing_keys_registered_witness :
    (run idsInstance [.createTexture (.ok ⟨5, 8, 8⟩), .createRenderTarget (.ok ⟨7, 64, 64⟩) 1,
        .deleteRenderTarget 1]).renderTargetToTexture 3 = some 2 ∧
    ((run idsInstance [.createTexture (.ok ⟨5, 8, 8⟩), .createRenderTarget (.ok ⟨7, 64, 64⟩) 1,
        .deleteRenderTarget 1]).renderTargets 3).isSome ∧
    ((run idsInstance [.createTexture (.ok ⟨5, 8, 8⟩), .createRenderTarget (.ok ⟨7, 64, 64⟩) 1,
        .deleteRenderTarget 1]).textures 2).isSome :=
  ⟨by decide, backing_keys_registered _ 3 2 (by decide)⟩

/-- C9: in every registry state reached from the initial registry,
`addRenderTarget` leaves the render-target-to-texture map and the texture map
as they are, and `toTexture` of the identifier it returns is 0, which is not
the identifier of a registered texture. -/
theorem addRenderTarget_without_backing_texture (ops : List Op) (renderTarget : RenderTarget) :
    ((run idsInstance ops).addRenderTarget renderTarget).2.renderTargetToTexture
      = (run idsInstance ops).renderTargetToTexture ∧
    ((run idsInstance ops).addRenderTarget renderTarget).2.textures
      = (run idsInstance ops).textures ∧
    ((run idsInstance ops).addRenderTarget renderTarget).2.toTexture
      ((run idsInstance ops).addRenderTarget renderTarget).1 = 0 ∧
    ((run idsInstance ops).addRenderTarget renderTarget).2.textures 0 = none := by
  have hc := run_consistent ops idsInstance idsInstance_consistent
  refine ⟨rfl, rfl, ?_, ?_⟩
  · simp only [ids.addRenderTarget, ids.toTexture]
    cases hk : (run idsInstance ops).renderTargetToTexture ((run idsInstance ops).lastId + 1) with
    | none => rfl
    | some t =>
      have := hc.renderTargetKeys _ (hc.backing _ t hk).1
      omega
  · simp only [ids.addRenderTarget]
    cases ht : (run idsInstance ops).textures 0 with
    | none => rfl
    | some t =>
      have := hc.textureKeys 0 (by simp [ht])
      omega

/-! ## The viewport cache and the bound framebuffer -/

/-- Setting the viewport of a registered render target keeps the cache in
agreement with the GPU. -/
theorem setViewportIfNeeded_cacheSound (i : ids) (bound : Option Nat) (id : RenderTargetID)
    (h : CacheSound i bound) (hreg : (i.renderTargets id).isSome) :
    CacheSound (i.setViewportIfNeeded id).1
      ((i.setViewportIfNeeded id).2.foldl boundAfter bound) := by
  by_cases hcur : i.currentRenderTargetId = id
  · have e : i.setViewportIfNeeded id = (i, []) := by
      simp [ids.setViewportIfNeeded, hcur]
    rw [e]
    exact h
  · have e : i.setViewportIfNeeded id =
        ({ i with currentRenderTargetId := id }, [Event.setAsViewport (i.renderTargets id)]) := by
      simp [ids.setViewportIfNeeded, ids.renderTargetAt, hcur]
    rw [e]
    refine ⟨⟨h.consistent.counter, h.consistent.textureKeys, h.consistent.renderTargetKeys,
      h.consistent.backing, h.consistent.unshared⟩, Or.inr hreg, ?_⟩
    intro r hr
    simp only at hr
    simp [boundAfter, hr]

/-- Every call other than a deletion, on registered identifiers, keeps the
cache in agreement with the GPU. -/
theorem step_cacheSound (i : ids) (bound : Option Nat) (op : Op) (h : CacheSound i bound)
    (hreg : op.onRegistered i = true) (hnd : op.isDelete = false) :
    CacheSound (step i op).state ((step i op).events.foldl boundAfter bound) := by
  have hc := h.consistent.counter
  have hsentinel : i.renderTargets (-1) = none := by
    cases hk : i.renderTargets (-1) with
    | none => rfl
    | some r =>
      have := h.consistent.renderTargetKeys (-1) (by simp [hk])
      omega
  cases op with
  | createTexture native =>
    cases native with
    | error e => exact h
    | ok t =>
      exact ⟨createTexture_consistent i (.ok t) h.consistent, h.active, h.bound_eq⟩
  | createRenderTarget native framebuffer =>
    cases native with
    | error e => exact h
    | ok t =>
      refine ⟨createRenderTarget_consistent i (.ok t) framebuffer h.consistent, Or.inl rfl, ?_⟩
      intro r hr
      simp only [step, ids.createRenderTarget, Function.update_apply] at hr
      split_ifs at hr with hk
      · simp only [RenderTargetID] at hk
        omega
      · rw [hsentinel] at hr
        cases hr
  | addRenderTarget rt =>
    have hne : ¬ i.currentRenderTargetId = i.lastId + 1 := by
      intro heq
      rcases h.active with ha | ha
      · simp only [RenderTargetID] at ha heq
        omega
      · have := h.consistent.renderTargetKeys _ ha
        simp only [RenderTargetID] at this heq
        omega
    refine ⟨addRenderTarget_consistent i rt h.consistent, ?_, ?_⟩
    · rcases h.active with ha | ha
      · exact Or.inl ha
      · right
        simp only [step, ids.addRenderTarget, Function.update_apply, if_neg hne]
        exact ha
    · intro r hr
      simp only [step, ids.addRenderTarget, Function.update_apply, if_neg hne] at hr
      exact h.bound_eq r hr
  | deleteRenderTarget id => simp [Op.isDelete] at hnd
  | fillRenderTarget id r g b =>
    simp only [Op.onRegistered] at hreg
    have hs := setViewportIfNeeded_cacheSound i bound id h hreg
    simp only [step, ids.fillRenderTarget, List.foldl_append]
    simpa [boundAfter] using hs
  | drawTexture target id =>
    simp only [Op.onRegistered, Bool.and_eq_true] at hreg
    have hs := setViewportIfNeeded_cacheSound i bound target h hreg.1
    simp only [step, ids.drawTexture]
    cases i.textureAt id <;>
      simpa [List.foldl_append, boundAfter] using hs

/-- A sequence of calls without deletion, on registered identifiers, keeps the
cache in agreement with the GPU. -/
theorem run_cacheSound (ops : List Op) : ∀ (i : ids) (bound : Option Nat),
    CacheSound i bound → allRegistered i ops = true → (∀ op ∈ ops, op.isDelete = false) →
    CacheSound (run i ops) ((trace i ops).foldl boundAfter bound) := by
  induction ops with
  | nil => intro i bound h _ _; exact h
  | cons op ops ih =>
    intro i bound h hreg hnd
    simp only [allRegistered, Bool.and_eq_true] at hreg
    simp only [run, trace, List.foldl_append]
    exact ih _ _ (step_cacheSound i bound op h hreg.1 (hnd op (List.mem_cons_self _ _)))
      hreg.2 (fun o ho => hnd o (List.mem_cons_of_mem _ ho))

/-- As long as nothing is deleted, a skipped bind finds the framebuffer of its
target bound: in every state reached from the initial registry by calls on
registered identifiers, none of them a deletion, the framebuffer of the cached
active render target is the bound one. -/
theorem viewport_cache_sound_without_deletion (ops : List Op)
    (hreg : allRegistered idsInstance ops = true) (hnd : ∀ op ∈ ops, op.isDelete = false)
    (r : RenderTarget)
    (hr : (run idsInstance ops).renderTargets (run idsInstance ops).currentRenderTargetId
      = some r) :
    boundFramebuffer (trace idsInstance ops) = some r.framebuffer := by
  have h0 : CacheSound idsInstance none :=
    ⟨idsInstance_consistent, Or.inl rfl, fun r hr => by simp [idsInstance] at hr⟩
  exact (run_cacheSound ops idsInstance none h0 hreg hnd).bound_eq r hr

/-! ## Deletion and the cached active render target -/

/-- C6, the code at a render target registered through `addRenderTarget`: 
`deleteRenderTarget` disposes the render target and then calls
`texture.dispose()` on the nil texture found under the texture identifier 0. -/
theorem deleteRenderTarget_added_disposes_nil_texture :
    (idsInstance.addRenderTarget ⟨0, 640, 480⟩).1 = 1 ∧
    (idsInstance.addRenderTarget ⟨0, 640, 480⟩).2.toTexture 1 = 0 ∧
    ((idsInstance.addRenderTarget ⟨0, 640, 480⟩).2.deleteRenderTarget 1).2 =
      [Event.renderTargetDispose (some ⟨0, 640, 480⟩), Event.textureDispose none] := by
  decide

/-- C7, the code at the deletion of the cached active render target: after a
render target is created, filled and deleted, all three calls naming registered
identifiers only, the cached active render target is still 2, neither the
sentinel -1 nor a key of the render target map. -/
theorem deleteRenderTarget_keeps_stale_active_target :
    allRegistered idsInstance deleteActiveScenario = true ∧
    (run idsInstance deleteActiveScenario).currentRenderTargetId = 2 ∧
    (run idsInstance deleteActiveScenario).renderTargets 2 = none ∧
    (2 : RenderTargetID) ≠ -1 := by
  decide

end opengl
